import Mathlib

/-!
Verification of the dual-transport gateway client of the
cloudflare-ai-gateway-realtime-poc repository.

The JavaScript sources are shallowly embedded: each method becomes a pure
Lean function over explicit state; JavaScript truthiness on strings and
numbers is modelled explicitly (`"" `, `0`, `false` are falsy); fallible
methods return `Except`/`Option`; asynchronous calls take the outcome of
the awaited operation as an explicit argument.
-/

/-! ## Gateway configuration (src/js/config.js) -/

/-- The configuration record handled by `ConfigManager` (`loadConfig`
returns exactly these fields). -/
structure Config where
  accountId : String
  gatewayId : String
  openaiKey : String
  cfAuthToken : String
  useAuthGateway : Bool
  model : String
  voice : String
deriving DecidableEq, Repr

/-- The default configuration returned by `ConfigManager.loadConfig` when
nothing is saved. -/
def ConfigManager.defaultConfig : Config :=
  { accountId := ""
    gatewayId := ""
    openaiKey := ""
    cfAuthToken := ""
    useAuthGateway := false
    model := "gpt-4o-mini"
    voice := "alloy" }

/-- The error thrown by the URL-deriving getters when an identifier is
missing (spec name: ConfigurationError). -/
structure ConfigurationError where
  message : String
deriving DecidableEq, Repr

/-- `ConfigManager.getCloudflareBaseUrl`: throws when `accountId` or
`gatewayId` is falsy (empty), otherwise builds the https gateway URL. -/
def ConfigManager.getCloudflareBaseUrl (c : Config) : Except ConfigurationError String :=
  if c.accountId = "" ∨ c.gatewayId = "" then
    .error ⟨"Cloudflare Account ID and Gateway ID are required"⟩
  else
    .ok ("https://gateway.ai.cloudflare.com/v1/" ++ c.accountId ++ "/" ++ c.gatewayId ++ "/openai")

/-- `ConfigManager.getWebSocketUrl`: same validation, wss counterpart with
the `/realtime` suffix. -/
def ConfigManager.getWebSocketUrl (c : Config) : Except ConfigurationError String :=
  if c.accountId = "" ∨ c.gatewayId = "" then
    .error ⟨"Cloudflare Account ID and Gateway ID are required"⟩
  else
    .ok ("wss://gateway.ai.cloudflare.com/v1/" ++ c.accountId ++ "/" ++ c.gatewayId ++ "/openai/realtime")

/-- `ConfigManager.getHeaders`: ordered key/value pairs of the header
object built for HTTP requests. -/
def ConfigManager.getHeaders (c : Config) : List (String × String) :=
  [("Content-Type", "application/json")]
    ++ (if c.openaiKey ≠ "" then [("Authorization", "Bearer " ++ c.openaiKey)] else [])
    ++ (if c.useAuthGateway ∧ c.cfAuthToken ≠ "" then
          [("cf-aig-authorization", "Bearer " ++ c.cfAuthToken)]
        else [])

/-- Result record of `ConfigManager.validateConfig`. -/
structure ValidationResult where
  valid : Bool
  errors : List String
deriving DecidableEq, Repr

/-- `ConfigManager.validateConfig`: accumulates one error string per
violated requirement, in source order, and reports `valid` exactly when
the list is empty. -/
def ConfigManager.validateConfig (c : Config) : ValidationResult :=
  let errors :=
    (if c.accountId = "" then ["Cloudflare Account ID is required"] else [])
      ++ (if c.gatewayId = "" then ["Gateway ID is required"] else [])
      ++ (if c.openaiKey = "" then ["OpenAI API Key is required"] else [])
      ++ (if c.useAuthGateway ∧ c.cfAuthToken = "" then
            ["CF AI Gateway Auth Token is required when using Authenticated Gateway"]
          else [])
  { valid := errors.isEmpty, errors := errors }

/-- `validateConfig` as a state-passing method on the manager: it reads
`this.config` and returns the result; the configuration itself is passed
through untouched (the method performs no assignment). -/
def ConfigManager.validateConfigRun (c : Config) : Config × ValidationResult :=
  (c, ConfigManager.validateConfig c)

/-! ## WebSocket subprotocols (test-gateway-node.js, GatewayTester.connect) -/

/-- The subprotocol list built inside `GatewayTester.connect`.  The entry
with the inline OpenAI key is commented out in the source (the line
reading openai-insecure-api-key followed by the key), so the array holds
only the fixed tokens, plus the gateway auth token when it is truthy. -/
def GatewayTester.buildWebSocketSubprotocols (openaiKey cfAuthToken : String) : List String :=
  let protocols := ["realtime", "openai-beta.realtime-v1"]
  let _ := openaiKey
  protocols ++ (if cfAuthToken ≠ "" then ["cf-aig-authorization." ++ cfAuthToken] else [])

/-- Modelled from the spec: the claimed `buildWebSocketSubprotocols`, with
the "use insecure subprotocol" flag selecting the inline-credential token
(`openai-insecure-api-key.<apiKey>`) in second position.  No such flag or
token exists in the source; this definition exists to compare the claim
with the code. -/
def subprotocolsClaimed (useInsecure : Bool) (openaiKey cfAuthToken : String) : List String :=
  ["realtime"]
    ++ (if useInsecure then ["openai-insecure-api-key." ++ openaiKey] else [])
    ++ ["openai-beta.realtime-v1"]
    ++ (if cfAuthToken ≠ "" then ["cf-aig-authorization." ++ cfAuthToken] else [])

/-! ## Close-code handling (test-gateway-node.js, ws close handler) -/

/-- The descriptive close-code table logged by the close handler. -/
def closeCodes : List (Nat × String) :=
  [(1000, "Normal closure"),
   (1001, "Going away"),
   (1002, "Protocol error"),
   (1003, "Unsupported data"),
   (1006, "Abnormal closure"),
   (1007, "Invalid frame payload data"),
   (1008, "Policy violation"),
   (1009, "Message too big"),
   (1011, "Internal server error"),
   (4000, "Bad request"),
   (4001, "Unauthorized"),
   (4002, "Payment required"),
   (4003, "Forbidden"),
   (4004, "Not found"),
   (4008, "Request timeout")]

/-- Diagnostic meaning looked up for a close code (`closeCodes[code]`);
`none` for a code absent from the table. -/
def closeCodeMeaning (code : Nat) : Option String :=
  closeCodes.lookup code

/-- The warning classifications the close handler raises for specific
codes. -/
inductive CloseWarning where
  | authenticationFailure
  | protocolNegotiationFailure
deriving DecidableEq, Repr

/-- The specific-guidance branch of the close handler: codes 4001 and
4003 warn about authentication, 1002 about the subprotocol negotiation;
every other code raises no warning. -/
def closeWarning (code : Nat) : Option CloseWarning :=
  if code = 4001 ∨ code = 4003 then some .authenticationFailure
  else if code = 1002 then some .protocolNegotiationFailure
  else none

/-! ## Conversation messages -/

/-- A conversation turn (`{role, content}`). -/
structure Message where
  role : String
  content : String
deriving DecidableEq, Repr

/-! ## Chat-completion request building
(test-chat-completion.js, ChatCompletionTester.sendChatCompletion) -/

/-- The options bag passed to `sendChatCompletion`; absent fields are
`none`. -/
structure ChatOptions where
  model : Option String := none
  temperature : Option Rat := none
  maxTokens : Option Nat := none
  stream : Option Bool := none
deriving DecidableEq, Repr

/-- JavaScript `a || d` for an optional string: the default replaces both
an absent and an empty (falsy) value. -/
def jsOrString (v : Option String) (d : String) : String :=
  match v with
  | none => d
  | some s => if s = "" then d else s

/-- JavaScript `a || d` for an optional number: the default replaces both
an absent and a zero (falsy) value. -/
def jsOrRat (v : Option Rat) (d : Rat) : Rat :=
  match v with
  | none => d
  | some x => if x = 0 then d else x

/-- JavaScript `a || d` for an optional natural number. -/
def jsOrNat (v : Option Nat) (d : Nat) : Nat :=
  match v with
  | none => d
  | some x => if x = 0 then d else x

/-- JavaScript `a || d` for an optional boolean. -/
def jsOrBool (v : Option Bool) (d : Bool) : Bool :=
  match v with
  | none => d
  | some b => if b then b else d

/-- The serialized request body. -/
structure RequestBody where
  model : String
  messages : List Message
  temperature : Rat
  max_tokens : Nat
  stream : Bool
deriving DecidableEq, Repr

/-- The `requestBody` object built by
`ChatCompletionTester.sendChatCompletion`: every default is applied with
the JavaScript `||` operator. -/
def ChatCompletionTester.requestBody (configModel : String) (messages : List Message)
    (options : ChatOptions) : RequestBody :=
  { model := jsOrString options.model configModel
    messages := messages
    temperature := jsOrRat options.temperature 0.7
    max_tokens := jsOrNat options.maxTokens 1000
    stream := jsOrBool options.stream false }

/-! ## HTTP send with rollback (test-chat-completion.js and the browser
chat module) -/

/-- One choice of a chat-completion response (`choices[i].message`). -/
structure Choice where
  message : Message
deriving DecidableEq, Repr

/-- A parsed chat-completion response body.  An absent `choices` field and
an empty array behave identically in the guards below, so both are
modelled by `[]`. -/
structure ChatResponse where
  choices : List Choice
deriving DecidableEq, Repr

/-- Outcome of the awaited `fetch` of a chat completion: a parsed 2xx
response, a non-2xx status with its body text, or a network failure. -/
inductive FetchOutcome where
  | success (resp : ChatResponse)
  | httpError (status : Nat) (body : String)
  | networkError (msg : String)
deriving DecidableEq, Repr

/-- `true` on the two failure constructors (the `catch` path of the
senders). -/
def FetchOutcome.isFailure : FetchOutcome → Bool
  | .success _ => false
  | .httpError _ _ => true
  | .networkError _ => true

/-- Whitespace characters relevant to the trims and filters of the chat
modules (the full JavaScript white-space set is wider, but only these
occur in the modelled inputs). -/
def isJsWhitespace (c : Char) : Bool :=
  c = ' ' || c = '\t' || c = '\n' || c = '\r'

/-- JavaScript `s.trim()`: strip whitespace from both ends. -/
def jsTrim (s : String) : String :=
  ⟨((s.data.dropWhile isJsWhitespace).reverse.dropWhile isJsWhitespace).reverse⟩

/-- Observable result of one `sendMessage` call: the conversation history
afterwards, the returned content, and the error text surfaced to the user
(CLI log line or system chat bubble), if any. -/
structure SendResult where
  messages : List Message
  returned : Option String
  surfacedError : Option String
deriving DecidableEq, Repr

/-- `ChatCompletionTester.sendMessage` (CLI tester): pushes the user turn,
awaits `sendChatCompletion`; on success with a first choice pushes the
assistant message; on a thrown error logs it and pops the failed user
turn from the history. -/
def ChatCompletionTester.sendMessage (history : List Message) (userMessage : String)
    (outcome : FetchOutcome) : SendResult :=
  let history := history ++ [⟨"user", userMessage⟩]
  match outcome with
  | .success resp =>
      match resp.choices with
      | c :: _ =>
          { messages := history ++ [c.message]
            returned := some c.message.content
            surfacedError := none }
      | [] =>
          { messages := history, returned := none, surfacedError := none }
  | .httpError status body =>
      { messages := history.dropLast
        returned := none
        surfacedError := some ("HTTP " ++ toString status ++ ": " ++ body) }
  | .networkError msg =>
      { messages := history.dropLast
        returned := none
        surfacedError := some msg }

/-- `ChatManager.sendMessage` (browser chat module): after passing the
empty-input, in-flight and configuration guards it pushes the user turn;
on success it pushes the assistant turn; on any thrown error it shows a
system error bubble — the `catch` block never removes the pushed user
turn from `this.messages`. -/
def ChatManager.sendMessage (cfg : Config) (isProcessing : Bool) (messages : List Message)
    (input : String) (outcome : FetchOutcome) : SendResult :=
  let message := jsTrim input
  if message = "" ∨ isProcessing then
    { messages := messages, returned := none, surfacedError := none }
  else if ¬ (ConfigManager.validateConfig cfg).valid then
    { messages := messages
      returned := none
      surfacedError := some ("Configuration errors: "
        ++ String.intercalate ", " (ConfigManager.validateConfig cfg).errors) }
  else
    let messages := messages ++ [⟨"user", message⟩]
    match outcome with
    | .success resp =>
        match resp.choices with
        | c :: _ =>
            { messages := messages ++ [⟨"assistant", c.message.content⟩]
              returned := none
              surfacedError := none }
        | [] =>
            { messages := messages
              returned := none
              surfacedError := some "Error: Invalid response format" }
    | .httpError status body =>
        { messages := messages
          returned := none
          surfacedError := some ("Error: API Error: " ++ toString status ++ " - " ++ body) }
    | .networkError msg =>
        { messages := messages
          returned := none
          surfacedError := some ("Error: " ++ msg) }

/-! ## Realtime session state machine (src/js/realtime.js) -/

/-- Connection status shown by `updateConnectionStatus`. -/
inductive ConnStatus where
  | disconnected
  | connecting
  | connected
deriving DecidableEq, Repr

/-- Observable state of a `RealtimeGatewayManager`: the displayed status,
whether `this.client` is set, whether the current client holds an open
underlying socket, the number of open sockets of previously discarded
clients (never closed by anyone), and the recording flag. -/
structure RealtimeState where
  status : ConnStatus
  hasClient : Bool
  clientSocketOpen : Bool
  leakedSockets : Nat
  isRecording : Bool
deriving DecidableEq, Repr

/-- The fresh state built by the constructor. -/
def RealtimeGatewayManager.initialState : RealtimeState :=
  { status := .disconnected
    hasClient := false
    clientSocketOpen := false
    leakedSockets := 0
    isRecording := false }

/-- Total number of open underlying connections in a state. -/
def RealtimeState.openSockets (s : RealtimeState) : Nat :=
  s.leakedSockets + (if s.clientSocketOpen then 1 else 0)

/-- `RealtimeGatewayManager.connect`: validates the configuration and
returns unchanged when invalid; otherwise it unconditionally overwrites
`this.client` with a freshly constructed client (without disconnecting
the previous one, whose open socket is thereby leaked) and awaits the new
client's `connect`, whose success is the `ok` argument.  On success the
status becomes `connected`; on failure the `catch` sets it to
`disconnected` while `this.client` keeps the failed client. -/
def RealtimeGatewayManager.connect (cfg : Config) (s : RealtimeState) (ok : Bool) :
    RealtimeState :=
  if ¬ (ConfigManager.validateConfig cfg).valid then s
  else
    let leaked := s.leakedSockets + (if s.clientSocketOpen then 1 else 0)
    if ok then
      { status := .connected
        hasClient := true
        clientSocketOpen := true
        leakedSockets := leaked
        isRecording := s.isRecording }
    else
      { status := .disconnected
        hasClient := true
        clientSocketOpen := false
        leakedSockets := leaked
        isRecording := s.isRecording }

/-- `RealtimeGatewayManager.disconnect`: disconnects and clears the
current client when present, sets the status to `disconnected`, and stops
any active recording.  Defined for every state. -/
def RealtimeGatewayManager.disconnect (s : RealtimeState) : RealtimeState :=
  { status := .disconnected
    hasClient := false
    clientSocketOpen := false
    leakedSockets := s.leakedSockets
    isRecording := false }

/-! ## JSON values and a model of `JSON.parse`
(used by the streaming path of the browser chat module) -/

/-- Parsed JSON values; numbers keep their literal text, which is all the
streamed frames need. -/
inductive Json where
  | null
  | bool (b : Bool)
  | num (lit : String)
  | str (s : String)
  | arr (elems : List Json)
  | obj (members : List (String × Json))

/-- Opening brace character. -/
def braceOpen : Char := Char.ofNat 123

/-- Closing brace character. -/
def braceClose : Char := Char.ofNat 125

/-- JSON insignificant whitespace. -/
def isJsonWs (c : Char) : Bool :=
  c = ' ' || c = '\t' || c = '\n' || c = '\r'

/-- Drop leading JSON whitespace. -/
def skipWs (cs : List Char) : List Char :=
  cs.dropWhile isJsonWs

/-- Translation of a character following a backslash in a JSON string. -/
def escapeChar (e : Char) : Char :=
  if e = 'n' then '\n'
  else if e = 't' then '\t'
  else if e = 'r' then '\r'
  else if e = 'b' then Char.ofNat 8
  else if e = 'f' then Char.ofNat 12
  else e

/-- Parse the body of a JSON string after its opening quote, up to and
including the closing quote; returns the decoded characters and the rest
of the input, or `none` when the string is unterminated. -/
def parseStringBody : List Char → Option (List Char × List Char)
  | [] => none
  | c :: cs =>
    if c = '\"' then some ([], cs)
    else if c = '\\' then
      match cs with
      | [] => none
      | e :: cs2 => (parseStringBody cs2).map (fun p => (escapeChar e :: p.1, p.2))
    else (parseStringBody cs).map (fun p => (c :: p.1, p.2))

/-- Characters that may occur in a JSON number literal. -/
def isNumChar (c : Char) : Bool :=
  c.isDigit || c = '-' || c = '+' || c = '.' || c = 'e' || c = 'E'

mutual

/-- Fuelled recursive-descent parse of one JSON value. -/
def parseValue : Nat → List Char → Option (Json × List Char)
  | 0, _ => none
  | fuel + 1, cs =>
    match skipWs cs with
    | [] => none
    | c :: rest =>
      if c = '\"' then
        match parseStringBody rest with
        | some (body, r) => some (.str ⟨body⟩, r)
        | none => none
      else if c = braceOpen then
        match skipWs rest with
        | d :: r2 =>
            if d = braceClose then some (.obj [], r2)
            else
              match parseMembers fuel (d :: r2) with
              | some (ms, r3) => some (.obj ms, r3)
              | none => none
        | [] => none
      else if c = '[' then
        match skipWs rest with
        | ']' :: r2 => some (.arr [], r2)
        | r2 =>
            match parseItems fuel r2 with
            | some (vs, r3) => some (.arr vs, r3)
            | none => none
      else if c = 't' then
        match rest with
        | 'r' :: 'u' :: 'e' :: r => some (.bool true, r)
        | _ => none
      else if c = 'f' then
        match rest with
        | 'a' :: 'l' :: 's' :: 'e' :: r => some (.bool false, r)
        | _ => none
      else if c = 'n' then
        match rest with
        | 'u' :: 'l' :: 'l' :: r => some (.null, r)
        | _ => none
      else if c.isDigit || c = '-' then
        let tok := (c :: rest).takeWhile isNumChar
        if tok.any Char.isDigit then
          some (.num ⟨tok⟩, (c :: rest).dropWhile isNumChar)
        else none
      else none

/-- Fuelled parse of the comma-separated elements of a non-empty array,
including the closing bracket. -/
def parseItems : Nat → List Char → Option (List Json × List Char)
  | 0, _ => none
  | fuel + 1, cs =>
    match parseValue fuel cs with
    | some (v, r) =>
        match skipWs r with
        | ',' :: r2 =>
            match parseItems fuel r2 with
            | some (vs, r3) => some (v :: vs, r3)
            | none => none
        | ']' :: r2 => some ([v], r2)
        | _ => none
    | none => none

/-- Fuelled parse of the members of a non-empty object, including the
closing brace. -/
def parseMembers : Nat → List Char → Option (List (String × Json) × List Char)
  | 0, _ => none
  | fuel + 1, cs =>
    match cs with
    | q :: r =>
        if q = '\"' then
          match parseStringBody r with
          | some (key, r1) =>
              match skipWs r1 with
              | ':' :: r2 =>
                  match parseValue fuel r2 with
                  | some (v, r3) =>
                      match skipWs r3 with
                      | ',' :: r4 =>
                          match parseMembers fuel (skipWs r4) with
                          | some (ms, r5) => some ((⟨key⟩, v) :: ms, r5)
                          | none => none
                      | d :: r4 =>
                          if d = braceClose then some ([(⟨key⟩, v)], r4) else none
                      | [] => none
                  | none => none
              | _ => none
          | none => none
        else none
    | [] => none

end

/-- Model of `JSON.parse`: parse one value with ample fuel and require
only trailing whitespace after it. -/
def jsonParse (s : String) : Option Json :=
  match parseValue (2 * s.data.length + 2) s.data with
  | some (v, rest) => if skipWs rest = [] then some v else none
  | none => none

/-- JavaScript property access on a parsed value: defined on objects
(duplicate keys do not occur in the streamed frames), `undefined`
otherwise. -/
def Json.getField (j : Json) (key : String) : Option Json :=
  match j with
  | .obj members => members.lookup key
  | _ => none

/-- JavaScript index access `[0]` on a parsed value. -/
def Json.index0 : Json → Option Json
  | .arr (x :: _) => some x
  | _ => none

/-- The optional-chaining access `parsed.choices?.[0]?.delta?.content` of
the streaming loop; `content` is a string in the chat-completions delta
schema. -/
def deltaContent (j : Json) : Option String :=
  match (((j.getField "choices").bind Json.index0).bind
      (fun d => d.getField "delta")).bind (fun d => d.getField "content") with
  | some (.str s) => some s
  | _ => none

/-! ## Streaming chat (browser chat module, StreamingChatManager) -/

/-- The characters of the `data: ` marker each server-sent-event line
starts with. -/
def sseMarker : List Char := ("data: ").data

/-- Processing of one line of the streaming loop: lines without the
`data: ` marker, the `[DONE]` sentinel, unparseable fragments (logged and
skipped) and falsy delta contents leave the accumulator unchanged; a
truthy delta content is appended to it. -/
def StreamingChatManager.processLine (fullContent : String) (line : String) : String :=
  if line.data.take 6 = sseMarker then
    let data : String := ⟨line.data.drop 6⟩
    if data = "[DONE]" then fullContent
    else
      match jsonParse data with
      | some parsed =>
          match deltaContent parsed with
          | some content => if content ≠ "" then fullContent ++ content else fullContent
          | none => fullContent
      | none => fullContent

  else fullContent

/-- JavaScript `split('\n')`: split into segments, keeping empty ones. -/
def splitNewlines (cs : List Char) : List (List Char) :=
  cs.foldr
    (fun c acc =>
      match acc with
      | cur :: rest => if c = '\n' then [] :: cur :: rest else (c :: cur) :: rest
      | [] => [[c]])
    [[]]

/-- The lines of one decoded chunk:
`chunk.split('\n').filter(line => line.trim() !== '')`. -/
def StreamingChatManager.chunkLines (chunk : String) : List String :=
  ((splitNewlines chunk.data).map (fun l => (⟨l⟩ : String))).filter
    (fun line => ¬ line.data.all isJsonWs)

/-- One iteration of the reader loop: fold every retained line of the
chunk into the accumulated content. -/
def StreamingChatManager.processChunk (fullContent : String) (chunk : String) : String :=
  (StreamingChatManager.chunkLines chunk).foldl StreamingChatManager.processLine fullContent

/-- The accumulated content after the reader reports `done`, starting
from the empty string. -/
def StreamingChatManager.streamContent (chunks : List String) : String :=
  chunks.foldl StreamingChatManager.processChunk ""

/-- The contribution of a single line to the accumulated content. -/
def StreamingChatManager.lineDelta (line : String) : String :=
  StreamingChatManager.processLine "" line

/-- The contribution of a single chunk to the accumulated content. -/
def StreamingChatManager.chunkDelta (chunk : String) : String :=
  ((StreamingChatManager.chunkLines chunk).map StreamingChatManager.lineDelta).foldr
    (· ++ ·) ""

/-- Concatenation of a list of strings in order. -/
def concatAll (l : List String) : String :=
  l.foldr (· ++ ·) ""

/-- Outcome of the awaited streaming `fetch`: the decoded chunks read
until `done`, or a failure. -/
inductive StreamOutcome where
  | success (chunks : List String)
  | httpError (status : Nat) (body : String)
  | networkError (msg : String)
deriving DecidableEq, Repr

/-- `StreamingChatManager.sendMessage`: guards, optimistic user push,
streaming fold, and a single push of the accumulated assistant message
after the reader finishes — there is no rollback in the `catch` block
here either. -/
def StreamingChatManager.sendMessage (cfg : Config) (isProcessing : Bool)
    (messages : List Message) (input : String) (outcome : StreamOutcome) : SendResult :=
  let message := jsTrim input
  if message = "" ∨ isProcessing then
    { messages := messages, returned := none, surfacedError := none }
  else if ¬ (ConfigManager.validateConfig cfg).valid then
    { messages := messages
      returned := none
      surfacedError := some ("Configuration errors: "
        ++ String.intercalate ", " (ConfigManager.validateConfig cfg).errors) }
  else
    let messages := messages ++ [⟨"user", message⟩]
    match outcome with
    | .success chunks =>
        let fullContent := StreamingChatManager.streamContent chunks
        if fullContent ≠ "" then
          { messages := messages ++ [⟨"assistant", fullContent⟩]
            returned := none
            surfacedError := none }
        else
          { messages := messages, returned := none, surfacedError := none }
    | .httpError status body =>
        { messages := messages
          returned := none
          surfacedError := some ("Error: API Error: " ++ toString status ++ " - " ++ body) }
    | .networkError msg =>
        { messages := messages
          returned := none
          surfacedError := some ("Error: " ++ msg) }

/-- The first delta frame of the spec's streaming example. -/
def frameHe : String :=
  "data: \x7b\"choices\":[\x7b\"delta\":\x7b\"content\":\"He\"\x7d\x7d]\x7d"

/-- The second delta frame of the spec's streaming example. -/
def frameLlo : String :=
  "data: \x7b\"choices\":[\x7b\"delta\":\x7b\"content\":\"llo\"\x7d\x7d]\x7d"

/-- The terminating sentinel frame. -/
def frameDone : String := "data: [DONE]"

/-- A concrete configuration passing `validateConfig`, used by the closed
instances below. -/
def testValidConfig : Config :=
  { accountId := "acct"
    gatewayId := "gw"
    openaiKey := "sk-test"
    cfAuthToken := "cf-token"
    useAuthGateway := true
    model := "gpt-4o-mini"
    voice := "alloy" }

/-! ## Theorems -/

/-- A line made of the `data: ` marker followed by a payload starts with
the marker, and slicing the marker off recovers the payload. -/
theorem data_line_split (m : String) :
    ("data: " ++ m).data.take 6 = sseMarker ∧ ("data: " ++ m).data.drop 6 = m.data := by
  have hd : ("data: " ++ m).data = ("data: " : String).data ++ m.data := String.data_append ..
  have h6 : ("data: " : String).data.length = 6 := rfl
  constructor
  · rw [hd, ← h6, List.take_left]; rfl
  · rw [hd, ← h6, List.drop_left]

/-- Folding one line extends the accumulator by that line's delta. -/
theorem processLine_eq_append (acc line : String) :
    StreamingChatManager.processLine acc line
      = acc ++ StreamingChatManager.lineDelta line := by
  unfold StreamingChatManager.lineDelta StreamingChatManager.processLine
  dsimp only
  split
  · split
    · rw [String.append_empty]
    · cases hj : jsonParse ⟨line.data.drop 6⟩ with
      | none => dsimp only; rw [String.append_empty]
      | some parsed =>
        dsimp only
        cases hd : deltaContent parsed with
        | none => simp only [hd]; rw [String.append_empty]
        | some content =>
          simp only [hd]
          by_cases hc : content = ""
          · simp [hc, String.append_empty]
          · simp [hc, String.empty_append]
  · rw [String.append_empty]

/-- Folding a list of lines extends the accumulator by the concatenation
of their deltas, in order. -/
theorem foldl_processLine_eq (lines : List String) :
    ∀ acc : String,
      lines.foldl StreamingChatManager.processLine acc
        = acc ++ concatAll (lines.map StreamingChatManager.lineDelta) := by
  induction lines with
  | nil => intro acc; simp [concatAll, String.append_empty]
  | cons l ls ih =>
      intro acc
      simp only [List.foldl_cons, List.map_cons]
      rw [ih, processLine_eq_append, String.append_assoc]
      rfl

/-- Folding one chunk extends the accumulator by that chunk's delta. -/
theorem processChunk_eq_append (acc chunk : String) :
    StreamingChatManager.processChunk acc chunk
      = acc ++ StreamingChatManager.chunkDelta chunk := by
  unfold StreamingChatManager.processChunk StreamingChatManager.chunkDelta
  rw [foldl_processLine_eq]
  rfl

/-- Folding a list of chunks extends the accumulator by the concatenation
of their deltas, in order. -/
theorem foldl_processChunk_eq (chunks : List String) :
    ∀ acc : String,
      chunks.foldl StreamingChatManager.processChunk acc
        = acc ++ concatAll (chunks.map StreamingChatManager.chunkDelta) := by
  induction chunks with
  | nil => intro acc; simp [concatAll, String.append_empty]
  | cons c cs ih =>
      intro acc
      simp only [List.foldl_cons, List.map_cons]
      rw [ih, processChunk_eq_append, String.append_assoc]
      rfl

/-- The insecure inline-credential token differs from every token the
code actually emits, whatever the key and gateway auth token are. -/
theorem insecureToken_ne_emitted (k t : String) :
    "openai-insecure-api-key." ++ k ≠ "realtime"
      ∧ "openai-insecure-api-key." ++ k ≠ "openai-beta.realtime-v1"
      ∧ "openai-insecure-api-key." ++ k ≠ "cf-aig-authorization." ++ t := by
  refine ⟨fun h => ?_, fun h => ?_, fun h => ?_⟩
  · have h2 : ("openai-insecure-api-key." ++ k).data.take 1
        = ("realtime" : String).data.take 1 := by rw [h]
    have h3 : ("openai-insecure-api-key." ++ k).data.take 1 = ['o'] := rfl
    have h4 : ("realtime" : String).data.take 1 = ['r'] := rfl
    rw [h3, h4] at h2
    exact absurd h2 (by decide)
  · have h2 : ("openai-insecure-api-key." ++ k).data.take 8
        = ("openai-beta.realtime-v1" : String).data.take 8 := by rw [h]
    have h3 : ("openai-insecure-api-key." ++ k).data.take 8
        = ['o', 'p', 'e', 'n', 'a', 'i', '-', 'i'] := rfl
    have h4 : ("openai-beta.realtime-v1" : String).data.take 8
        = ['o', 'p', 'e', 'n', 'a', 'i', '-', 'b'] := rfl
    rw [h3, h4] at h2
    exact absurd h2 (by decide)
  · have h2 : ("openai-insecure-api-key." ++ k).data.take 1
        = ("cf-aig-authorization." ++ t).data.take 1 := by rw [h]
    have h3 : ("openai-insecure-api-key." ++ k).data.take 1 = ['o'] := rfl
    have h4 : ("cf-aig-authorization." ++ t).data.take 1 = ['c'] := rfl
    rw [h3, h4] at h2
    exact absurd h2 (by decide)

/-- C1 counterexample: with a non-empty API key and auth token, the list
built by `GatewayTester.connect` differs from the claimed list for a set
"use insecure subprotocol" flag — the insecure inline-credential token is
never emitted (its line is commented out in the source). -/
theorem buildWebSocketSubprotocols_claim_false :
    GatewayTester.buildWebSocketSubprotocols "sk-test" "cf-token"
        ≠ subprotocolsClaimed true "sk-test" "cf-token"
      ∧ "openai-insecure-api-key.sk-test"
        ∉ GatewayTester.buildWebSocketSubprotocols "sk-test" "cf-token" := by
  decide

/-- C1 (amended): for every configuration, the subprotocol list equals the
claimed list with the insecure flag permanently off: `realtime` first,
then `openai-beta.realtime-v1`, then `cf-aig-authorization.<token>`
exactly when the gateway auth token is non-empty; no insecure
inline-credential token ever appears. -/
theorem buildWebSocketSubprotocols_spec (openaiKey cfAuthToken : String) :
    GatewayTester.buildWebSocketSubprotocols openaiKey cfAuthToken
        = subprotocolsClaimed false openaiKey cfAuthToken
      ∧ (cfAuthToken ≠ "" →
          GatewayTester.buildWebSocketSubprotocols openaiKey cfAuthToken
            = ["realtime", "openai-beta.realtime-v1", "cf-aig-authorization." ++ cfAuthToken])
      ∧ (cfAuthToken = "" →
          GatewayTester.buildWebSocketSubprotocols openaiKey cfAuthToken
            = ["realtime", "openai-beta.realtime-v1"])
      ∧ ("openai-insecure-api-key." ++ openaiKey)
          ∉ GatewayTester.buildWebSocketSubprotocols openaiKey cfAuthToken := by
  refine ⟨?_, ?_, ?_, ?_⟩
  · by_cases h : cfAuthToken = "" <;>
      simp [GatewayTester.buildWebSocketSubprotocols, subprotocolsClaimed, h]
  · intro h; simp [GatewayTester.buildWebSocketSubprotocols, h]
  · intro h; simp [GatewayTester.buildWebSocketSubprotocols, h]
  · have hne := insecureToken_ne_emitted openaiKey cfAuthToken
    by_cases h : cfAuthToken = "" <;>
      simp [GatewayTester.buildWebSocketSubprotocols, h, hne.1, hne.2.1, hne.2.2]

/-- C1 witness: concrete instances of the amended statement. -/
theorem buildWebSocketSubprotocols_spec_witness :
    GatewayTester.buildWebSocketSubprotocols "sk-test" "cf-token"
        = ["realtime", "openai-beta.realtime-v1", "cf-aig-authorization.cf-token"]
      ∧ GatewayTester.buildWebSocketSubprotocols "sk-test" ""
        = ["realtime", "openai-beta.realtime-v1"] :=
  ⟨(buildWebSocketSubprotocols_spec "sk-test" "cf-token").2.1 (by decide),
   (buildWebSocketSubprotocols_spec "sk-test" "").2.2.1 rfl⟩

/-- C2: the two URL getters throw exactly when `accountId` or `gatewayId`
is empty, and otherwise return the https gateway URL and its wss
counterpart with the `/realtime` suffix. -/
theorem urlDerivation_spec (c : Config) :
    ((c.accountId = "" ∨ c.gatewayId = "") →
        ConfigManager.getCloudflareBaseUrl c
            = .error ⟨"Cloudflare Account ID and Gateway ID are required"⟩
          ∧ ConfigManager.getWebSocketUrl c
            = .error ⟨"Cloudflare Account ID and Gateway ID are required"⟩)
      ∧ (c.accountId ≠ "" → c.gatewayId ≠ "" →
          ConfigManager.getCloudflareBaseUrl c
              = .ok ("https://gateway.ai.cloudflare.com/v1/" ++ c.accountId ++ "/"
                  ++ c.gatewayId ++ "/openai")
            ∧ ConfigManager.getWebSocketUrl c
              = .ok ("wss://gateway.ai.cloudflare.com/v1/" ++ c.accountId ++ "/"
                  ++ c.gatewayId ++ "/openai/realtime")) := by
  constructor
  · intro h
    simp [ConfigManager.getCloudflareBaseUrl, ConfigManager.getWebSocketUrl, h]
  · intro h1 h2
    simp [ConfigManager.getCloudflareBaseUrl, ConfigManager.getWebSocketUrl, h1, h2]

/-- C2 witness: both branches at concrete configurations. -/
theorem urlDerivation_spec_witness :
    ConfigManager.getCloudflareBaseUrl ConfigManager.defaultConfig
        = .error ⟨"Cloudflare Account ID and Gateway ID are required"⟩
      ∧ ConfigManager.getCloudflareBaseUrl testValidConfig
        = .ok "https://gateway.ai.cloudflare.com/v1/acct/gw/openai"
      ∧ ConfigManager.getWebSocketUrl testValidConfig
        = .ok "wss://gateway.ai.cloudflare.com/v1/acct/gw/openai/realtime" :=
  ⟨((urlDerivation_spec ConfigManager.defaultConfig).1 (Or.inl rfl)).1,
   ((urlDerivation_spec testValidConfig).2 (by decide) (by decide)).1.trans rfl,
   ((urlDerivation_spec testValidConfig).2 (by decide) (by decide)).2.trans rfl⟩

/-- C3: the headers always carry the content type; carry
`Authorization: Bearer <apiKey>` exactly when the OpenAI key is
non-empty; and carry `cf-aig-authorization` exactly when gateway-level
auth is enabled and its token is non-empty. -/
theorem getHeaders_spec (c : Config) :
    (ConfigManager.getHeaders c).lookup "Content-Type" = some "application/json"
      ∧ (ConfigManager.getHeaders c).lookup "Authorization"
        = (if c.openaiKey ≠ "" then some ("Bearer " ++ c.openaiKey) else none)
      ∧ (ConfigManager.getHeaders c).lookup "cf-aig-authorization"
        = (if c.useAuthGateway ∧ c.cfAuthToken ≠ "" then some ("Bearer " ++ c.cfAuthToken)
           else none) := by
  by_cases h1 : c.openaiKey = "" <;>
    by_cases h2 : c.useAuthGateway = true <;>
      by_cases h3 : c.cfAuthToken = "" <;>
        simp_all [ConfigManager.getHeaders, List.lookup]

/-- C4 counterexample: in the browser chat module, after a failed HTTP
call (simulated 401) the conversation log still contains the
optimistically appended user message — `ChatManager.sendMessage` has no
rollback — so the log after the failed call differs from the log before
it (the error is surfaced, but the claim's rollback property fails). -/
theorem chatManager_no_rollback :
    (ChatManager.sendMessage testValidConfig false [] "hi"
        (.httpError 401 "Unauthorized")).messages = [⟨"user", "hi"⟩]
      ∧ (ChatManager.sendMessage testValidConfig false [] "hi"
          (.httpError 401 "Unauthorized")).messages ≠ []
      ∧ (ChatManager.sendMessage testValidConfig false [] "hi"
          (.httpError 401 "Unauthorized")).surfacedError.isSome = true := by
  refine ⟨by decide, by decide, by decide⟩

/-- C4 (amended): the rollback property holds for the CLI tester —
`ChatCompletionTester.sendMessage` pops the failed user turn, so on any
HTTP or network failure the history afterwards equals the history before
the call, and the error is surfaced; the browser `ChatManager.sendMessage`
does not roll back: the history afterwards is the prior history plus the
user turn (the error is still surfaced, never silently swallowed). -/
theorem sendMessage_rollback_spec (history : List Message) (userMessage : String)
    (outcome : FetchOutcome) (hfail : outcome.isFailure = true) :
    (ChatCompletionTester.sendMessage history userMessage outcome).messages = history
      ∧ (ChatCompletionTester.sendMessage history userMessage outcome).surfacedError.isSome
        = true
      ∧ (∀ cfg input, (ConfigManager.validateConfig cfg).valid = true → jsTrim input ≠ "" →
          (ChatManager.sendMessage cfg false history input outcome).messages
              = history ++ [⟨"user", jsTrim input⟩]
            ∧ (ChatManager.sendMessage cfg false history input outcome).surfacedError.isSome
              = true) := by
  refine ⟨?_, ?_, ?_⟩
  · cases outcome with
    | success resp => simp [FetchOutcome.isFailure] at hfail
    | httpError status body =>
        simp [ChatCompletionTester.sendMessage, List.dropLast_concat]
    | networkError msg =>
        simp [ChatCompletionTester.sendMessage, List.dropLast_concat]
  · cases outcome with
    | success resp => simp [FetchOutcome.isFailure] at hfail
    | httpError status body => simp [ChatCompletionTester.sendMessage]
    | networkError msg => simp [ChatCompletionTester.sendMessage]
  · intro cfg input hvalid htrim
    cases outcome with
    | success resp => simp [FetchOutcome.isFailure] at hfail
    | httpError status body =>
        constructor <;> simp [ChatManager.sendMessage, htrim, hvalid]
    | networkError msg =>
        constructor <;> simp [ChatManager.sendMessage, htrim, hvalid]

/-- C4 witness: the amended statement at a concrete 401 failure. -/
theorem sendMessage_rollback_spec_witness :
    (ChatCompletionTester.sendMessage [⟨"system", "You are a helpful assistant."⟩] "hi"
        (.httpError 401 "Unauthorized")).messages
      = [⟨"system", "You are a helpful assistant."⟩]
      ∧ (ChatManager.sendMessage testValidConfig false
          [⟨"system", "You are a helpful assistant."⟩] "hi"
          (.httpError 401 "Unauthorized")).messages
        = [⟨"system", "You are a helpful assistant."⟩] ++ [⟨"user", jsTrim "hi"⟩] :=
  ⟨(sendMessage_rollback_spec [⟨"system", "You are a helpful assistant."⟩] "hi"
      (.httpError 401 "Unauthorized") rfl).1,
   ((sendMessage_rollback_spec [⟨"system", "You are a helpful assistant."⟩] "hi"
      (.httpError 401 "Unauthorized") rfl).2.2 testValidConfig "hi" (by decide) (by decide)).1⟩

/-- C5: the streaming path accumulates exactly the concatenation, in
arrival order, of the parseable delta contents of the `data: ` lines (the
accumulator is the fold of the chunks); on success with a non-empty
accumulation exactly one assistant message holding it is appended after
the whole stream — in particular the frames carrying "He" and "llo"
followed by the `data: [DONE]` sentinel append exactly one assistant
message with content "Hello" — and an unparseable fragment leaves the
accumulator untouched without aborting the fold. -/
theorem streaming_fold_spec :
    (∀ chunks : List String,
        StreamingChatManager.streamContent chunks
          = concatAll (chunks.map StreamingChatManager.chunkDelta))
      ∧ (∀ chunk : String,
          StreamingChatManager.chunkDelta chunk
            = concatAll ((StreamingChatManager.chunkLines chunk).map
                StreamingChatManager.lineDelta))
      ∧ (∀ cfg input (messages : List Message) (chunks : List String),
          (ConfigManager.validateConfig cfg).valid = true →
          jsTrim input ≠ "" →
          StreamingChatManager.streamContent chunks ≠ "" →
          (StreamingChatManager.sendMessage cfg false messages input
              (.success chunks)).messages
            = messages ++ [⟨"user", jsTrim input⟩,
                ⟨"assistant", StreamingChatManager.streamContent chunks⟩])
      ∧ (∀ cfg (messages : List Message),
          (ConfigManager.validateConfig cfg).valid = true →
          (StreamingChatManager.sendMessage cfg false messages "Hi"
              (.success [frameHe, frameLlo, frameDone])).messages
            = messages ++ [⟨"user", "Hi"⟩, ⟨"assistant", "Hello"⟩])
      ∧ (∀ fragment fullContent : String, jsonParse fragment = none →
          StreamingChatManager.processLine fullContent ("data: " ++ fragment)
            = fullContent) := by
  have hmal : ∀ fragment fullContent : String, jsonParse fragment = none →
      StreamingChatManager.processLine fullContent ("data: " ++ fragment) = fullContent := by
    intro fragment fullContent hparse
    have h1 := (data_line_split fragment).1
    have h2 := (data_line_split fragment).2
    have heta : (⟨fragment.data⟩ : String) = fragment := rfl
    unfold StreamingChatManager.processLine
    rw [if_pos h1]
    dsimp only
    rw [h2, heta]
    split
    · rfl
    · rw [hparse]
  have hsend : ∀ cfg input (messages : List Message) (chunks : List String),
      (ConfigManager.validateConfig cfg).valid = true →
      jsTrim input ≠ "" →
      StreamingChatManager.streamContent chunks ≠ "" →
      (StreamingChatManager.sendMessage cfg false messages input
          (.success chunks)).messages
        = messages ++ [⟨"user", jsTrim input⟩,
            ⟨"assistant", StreamingChatManager.streamContent chunks⟩] := by
    intro cfg input messages chunks hvalid htrim hne
    simp [StreamingChatManager.sendMessage, htrim, hvalid, hne]
  refine ⟨?_, ?_, hsend, ?_, hmal⟩
  · intro chunks
    unfold StreamingChatManager.streamContent
    rw [foldl_processChunk_eq, String.empty_append]
  · intro chunk
    rfl
  · intro cfg messages hvalid
    have hHello : StreamingChatManager.streamContent [frameHe, frameLlo, frameDone]
        = "Hello" := rfl
    have := hsend cfg "Hi" messages [frameHe, frameLlo, frameDone] hvalid
      (by decide) (by rw [hHello]; decide)
    have ht : jsTrim "Hi" = "Hi" := rfl
    rw [this, hHello, ht]

/-- C5 witness: the spec's example stream appends one assistant "Hello"
message, and a malformed fragment contributes nothing. -/
theorem streaming_fold_spec_witness :
    (StreamingChatManager.sendMessage testValidConfig false [] "Hi"
        (.success [frameHe, frameLlo, frameDone])).messages
      = [] ++ [⟨"user", "Hi"⟩, ⟨"assistant", "Hello"⟩]
      ∧ StreamingChatManager.processLine "He" ("data: " ++ "\x7bmalformed")
        = "He" :=
  ⟨streaming_fold_spec.2.2.2.1 testValidConfig [] (by decide),
   streaming_fold_spec.2.2.2.2 "\x7bmalformed" "He" rfl⟩

/-- C6 counterexample: `RealtimeGatewayManager.connect` has no state
guard: invoked again while already `connected`, it is not a no-op — it
discards the connected client without closing it and opens a second
underlying socket, so the connection count reaches 2. -/
theorem connect_not_noop :
    (RealtimeGatewayManager.connect testValidConfig
        RealtimeGatewayManager.initialState true).status = .connected
      ∧ (RealtimeGatewayManager.connect testValidConfig
          RealtimeGatewayManager.initialState true).openSockets = 1
      ∧ RealtimeGatewayManager.connect testValidConfig
          (RealtimeGatewayManager.connect testValidConfig
            RealtimeGatewayManager.initialState true) true
        ≠ RealtimeGatewayManager.connect testValidConfig
            RealtimeGatewayManager.initialState true
      ∧ (RealtimeGatewayManager.connect testValidConfig
          (RealtimeGatewayManager.connect testValidConfig
            RealtimeGatewayManager.initialState true) true).openSockets = 2 := by
  decide

/-- C6 (amended): `connect` checks only the configuration, never the
session state: with a valid configuration it proceeds from every state —
including `connecting` and `connected` — opening one more underlying
socket (the previous client is dropped unclosed), so the count grows by
one per successful call instead of staying at one; with an invalid
configuration it returns the state unchanged. -/
theorem connect_guardless_spec (cfg : Config) (s : RealtimeState)
    (hvalid : (ConfigManager.validateConfig cfg).valid = true) :
    (RealtimeGatewayManager.connect cfg s true).status = .connected
      ∧ (RealtimeGatewayManager.connect cfg s true).openSockets = s.openSockets + 1
      ∧ (RealtimeGatewayManager.connect cfg s false).status = .disconnected
      ∧ (RealtimeGatewayManager.connect cfg s false).openSockets = s.openSockets := by
  refine ⟨?_, ?_, ?_, ?_⟩ <;>
    simp [RealtimeGatewayManager.connect, hvalid, RealtimeState.openSockets]

/-- C6 witness: one successful connect from the fresh state. -/
theorem connect_guardless_spec_witness :
    (RealtimeGatewayManager.connect testValidConfig
        RealtimeGatewayManager.initialState true).status = .connected
      ∧ (RealtimeGatewayManager.connect testValidConfig
          RealtimeGatewayManager.initialState true).openSockets
        = RealtimeGatewayManager.initialState.openSockets + 1 :=
  ⟨(connect_guardless_spec testValidConfig RealtimeGatewayManager.initialState (by decide)).1,
   (connect_guardless_spec testValidConfig RealtimeGatewayManager.initialState (by decide)).2.1⟩

/-- C7: `disconnect` is total over session states and idempotent: from any
state it yields `disconnected` with the client cleared and its socket
released, and applying it twice equals applying it once. -/
theorem disconnect_idempotent_spec (s : RealtimeState) :
    (RealtimeGatewayManager.disconnect s).status = .disconnected
      ∧ (RealtimeGatewayManager.disconnect s).hasClient = false
      ∧ (RealtimeGatewayManager.disconnect s).clientSocketOpen = false
      ∧ RealtimeGatewayManager.disconnect (RealtimeGatewayManager.disconnect s)
        = RealtimeGatewayManager.disconnect s := by
  simp [RealtimeGatewayManager.disconnect]

/-- C8: the close handler classifies 4001 and 4003 as authentication
failures, 1002 as a protocol-negotiation failure, logs the abnormal- and
normal-closure meanings for 1006 and 1000 without raising a warning, and
raises no warning for any other code. -/
theorem closeCode_classification_spec :
    closeWarning 4001 = some .authenticationFailure
      ∧ closeWarning 4003 = some .authenticationFailure
      ∧ closeWarning 1002 = some .protocolNegotiationFailure
      ∧ closeCodeMeaning 4001 = some "Unauthorized"
      ∧ closeCodeMeaning 4003 = some "Forbidden"
      ∧ closeCodeMeaning 1002 = some "Protocol error"
      ∧ closeCodeMeaning 1006 = some "Abnormal closure"
      ∧ closeCodeMeaning 1000 = some "Normal closure"
      ∧ (closeWarning 1000 = none ∧ closeWarning 1006 = none)
      ∧ (∀ code : Nat, code ≠ 4001 → code ≠ 4003 → code ≠ 1002 →
          closeWarning code = none) := by
  refine ⟨rfl, rfl, rfl, rfl, rfl, rfl, rfl, rfl, ⟨rfl, rfl⟩, ?_⟩
  intro code h1 h2 h3
  simp [closeWarning, h1, h2, h3]

/-- C8 witness: unknown codes raise no warning. -/
theorem closeCode_classification_spec_witness :
    closeWarning 4999 = none ∧ closeWarning 1011 = none :=
  ⟨closeCode_classification_spec.2.2.2.2.2.2.2.2.2 4999 (by decide) (by decide) (by decide),
   closeCode_classification_spec.2.2.2.2.2.2.2.2.2 1011 (by decide) (by decide) (by decide)⟩

/-- C9: the request-body defaults are applied by JavaScript truthiness:
an explicit temperature 0 is replaced by 0.7, maxTokens 0 by 1000, an
empty model override by the configured model, and an absent or false
stream flag yields false; a non-zero temperature in (0, 2] passes through
unchanged. -/
theorem requestBody_truthiness_spec (configModel : String) (messages : List Message)
    (o : ChatOptions) :
    (o.temperature = some 0 →
        (ChatCompletionTester.requestBody configModel messages o).temperature = 0.7)
      ∧ (o.maxTokens = some 0 →
          (ChatCompletionTester.requestBody configModel messages o).max_tokens = 1000)
      ∧ (o.model = some "" →
          (ChatCompletionTester.requestBody configModel messages o).model = configModel)
      ∧ ((o.stream = some false ∨ o.stream = none) →
          (ChatCompletionTester.requestBody configModel messages o).stream = false)
      ∧ (∀ t : Rat, o.temperature = some t → 0 < t → t ≤ 2 →
          (ChatCompletionTester.requestBody configModel messages o).temperature = t) := by
  refine ⟨?_, ?_, ?_, ?_, ?_⟩
  · intro h; simp [ChatCompletionTester.requestBody, jsOrRat, h]
  · intro h; simp [ChatCompletionTester.requestBody, jsOrNat, h]
  · intro h; simp [ChatCompletionTester.requestBody, jsOrString, h]
  · intro h
    rcases h with h | h <;> simp [ChatCompletionTester.requestBody, jsOrBool, h]
  · intro t h hpos hle
    have hne : t ≠ 0 := ne_of_gt hpos
    simp [ChatCompletionTester.requestBody, jsOrRat, h, hne]

/-- C9 witness: each default and the passthrough at concrete options. -/
theorem requestBody_truthiness_spec_witness :
    (ChatCompletionTester.requestBody "gpt-4o-mini" [] { temperature := some 0 }).temperature
        = 0.7
      ∧ (ChatCompletionTester.requestBody "gpt-4o-mini" [] { maxTokens := some 0 }).max_tokens
        = 1000
      ∧ (ChatCompletionTester.requestBody "gpt-4o-mini" [] { model := some "" }).model
        = "gpt-4o-mini"
      ∧ (ChatCompletionTester.requestBody "gpt-4o-mini" [] {}).stream = false
      ∧ (ChatCompletionTester.requestBody "gpt-4o-mini" [] { temperature := some 1 }).temperature
        = 1 :=
  ⟨(requestBody_truthiness_spec "gpt-4o-mini" [] { temperature := some 0 }).1 rfl,
   (requestBody_truthiness_spec "gpt-4o-mini" [] { maxTokens := some 0 }).2.1 rfl,
   (requestBody_truthiness_spec "gpt-4o-mini" [] { model := some "" }).2.2.1 rfl,
   (requestBody_truthiness_spec "gpt-4o-mini" [] {}).2.2.2.1 (Or.inr rfl),
   (requestBody_truthiness_spec "gpt-4o-mini" [] { temperature := some 1 }).2.2.2.2 1 rfl
     (by decide) (by decide)⟩

/-- C10: `validateConfig` reports valid exactly when the account, gateway
and key identifiers are non-empty and, when gateway auth is enabled, the
auth token is non-empty too; it accumulates one error entry per violated
condition, `valid` mirrors emptiness of the error list, and the
configuration is passed through unmodified. -/
theorem validateConfig_spec (c : Config) :
    ((ConfigManager.validateConfig c).valid = true ↔
        (c.accountId ≠ "" ∧ c.gatewayId ≠ "" ∧ c.openaiKey ≠ ""
          ∧ (c.useAuthGateway = true → c.cfAuthToken ≠ "")))
      ∧ (ConfigManager.validateConfig c).errors.length
        = ((if c.accountId = "" then 1 else 0) + (if c.gatewayId = "" then 1 else 0)
            + (if c.openaiKey = "" then 1 else 0)
            + (if c.useAuthGateway = true ∧ c.cfAuthToken = "" then 1 else 0))
      ∧ (ConfigManager.validateConfig c).valid
        = (ConfigManager.validateConfig c).errors.isEmpty
      ∧ (ConfigManager.validateConfigRun c).1 = c := by
  refine ⟨?_, ?_, ?_, rfl⟩ <;>
    by_cases h1 : c.accountId = "" <;> by_cases h2 : c.gatewayId = "" <;>
      by_cases h3 : c.openaiKey = "" <;> by_cases h4 : c.useAuthGateway = true <;>
        by_cases h5 : c.cfAuthToken = "" <;>
          simp_all [ConfigManager.validateConfig]

/-- C10 witness: a fully valid configuration, and the three missing-field
errors of the default configuration. -/
theorem validateConfig_spec_witness :
    (ConfigManager.validateConfig testValidConfig).valid = true
      ∧ (ConfigManager.validateConfig ConfigManager.defaultConfig).errors.length = 3 :=
  ⟨(validateConfig_spec testValidConfig).1.mpr
      ⟨by decide, by decide, by decide, fun _ => by decide⟩,
   (validateConfig_spec ConfigManager.defaultConfig).2.1.trans (by decide)⟩
